import Mathlib

/-!
Shallow embedding of the Device Connection & State Synchronization Engine of
homebridge-xiaomi-airpurifier (src/index.js, class DeviceHandler, current
revision).

Modelling conventions:
* JS numbers that are known finite are modelled by ℚ; a possibly non-finite
  number (NaN, Infinity, the result of Number() on junk) is an Option ℚ with
  none standing for the non-finite case, mirroring the Number.isFinite guards
  in the source.
* Math.round is rounding half toward positive infinity, i.e. fun q => ⌊q + 1/2⌋.
* The miio transport is an abstract function from a method name to the outcome
  of device.call plus the result[0] acknowledgement check: ok, a failure whose
  message matches the method-not-found regex of isMethodNotFound, or any other
  failure.
* Timers and logging are side effects: logging is dropped, issued device calls
  are collected in a list, and the reconnect timers of connect() are counted in
  an explicit transition system.
-/

/-! ### Property codec (src/index.js lines 699-701, 877-880) -/

/-- JS Math.round on a finite number: round half toward positive infinity. -/
def jsRound (q : ℚ) : ℤ := ⌊q + 1 / 2⌋

/-- Line 700: Math.max(0, Math.min(100, Number(percent))). -/
def clampPercent (p : ℚ) : ℚ := max 0 (min 100 p)

/-- Line 701: Math.max(1, Math.min(maxFavoriteLevel, Math.round((level / 100) * maxFavoriteLevel))). -/
def domainToDeviceLevel (maxFav : ℤ) (p : ℚ) : ℤ :=
  max 1 (min maxFav (jsRound (clampPercent p / 100 * (maxFav : ℚ))))

/-- Line 879, inner expression: Math.round((fav / maxFavoriteLevel) * 100). -/
def favPercentOfLevel (maxFav : ℤ) (level : ℤ) : ℤ :=
  jsRound ((level : ℚ) / (maxFav : ℚ) * 100)

/-- Lines 878-879: fav = Number(state.favorite_level);
speed = Number.isFinite(fav) ? Math.max(0, Math.min(100, Math.round((fav / maxFavoriteLevel) * 100))) : 0.
The argument is the result of the Number() conversion, none when not finite. -/
def rotationSpeedFromCache (maxFav : ℤ) (fav : Option ℚ) : ℤ :=
  match fav with
  | none => 0
  | some f => max 0 (min 100 (jsRound (f / (maxFav : ℚ) * 100)))

/-! ### Air-quality thresholds (src/index.js lines 602-631) -/

/-- A threshold configuration value as seen by parseAqThresholds: an object
with fields t1..t4, an array, or anything else.  Each field or element is the
result of the Number() conversion applied by the source, none when not finite. -/
inductive AqConf
  | obj (t1 t2 t3 t4 : Option ℚ)
  | arr (elems : List (Option ℚ))
  | other

/-- The two validation conditions of parseAqThresholds on four finite numbers:
cand.every(v => v >= 0) and cand[0] <= cand[1] <= cand[2] <= cand[3]. -/
def quadOk (a b c d : ℚ) : Bool :=
  decide (0 ≤ a) && decide (0 ≤ b) && decide (0 ≤ c) && decide (0 ≤ d) &&
  decide (a ≤ b) && decide (b ≤ c) && decide (c ≤ d)

/-- Line 603: const def = [5, 15, 35, 55]. -/
def defaultAqThresholds : List ℚ := [5, 15, 35, 55]

/-- Lines 602-622: parseAqThresholds.  The object branch requires all four
fields finite and valid, the array branch requires exactly four finite valid
elements; everything else falls back to the default set. -/
def parseAqThresholds : AqConf → List ℚ
  | AqConf.obj t1 t2 t3 t4 =>
    match t1, t2, t3, t4 with
    | some a, some b, some c, some d =>
      if quadOk a b c d then [a, b, c, d] else defaultAqThresholds
    | _, _, _, _ => defaultAqThresholds
  | AqConf.arr es =>
    match es with
    | [some a, some b, some c, some d] =>
      if quadOk a b c d then [a, b, c, d] else defaultAqThresholds
    | _ => defaultAqThresholds
  | AqConf.other => defaultAqThresholds

/-- Whether a configuration value passes the validation of parseAqThresholds. -/
def isValidAqConf : AqConf → Bool
  | AqConf.obj (some a) (some b) (some c) (some d) => quadOk a b c d
  | AqConf.arr [some a, some b, some c, some d] => quadOk a b c d
  | _ => false

/-- The four supplied numbers of a configuration value (default elsewhere). -/
def suppliedThresholds : AqConf → List ℚ
  | AqConf.obj (some a) (some b) (some c) (some d) => [a, b, c, d]
  | AqConf.arr [some a, some b, some c, some d] => [a, b, c, d]
  | _ => defaultAqThresholds

/-- Non-decreasing check for a list of rationals. -/
def isSortedLe : List ℚ → Bool
  | [] => true
  | [_] => true
  | a :: b :: rest => decide (a ≤ b) && isSortedLe (b :: rest)

/-- Lines 624-631: mapAqiToHomeKitLevel.  The aqi argument is none when the
Number.isFinite guard fails (UNKNOWN = 0); t1..t4 are the four thresholds
t[0]..t[3]. -/
def mapAqiToHomeKitLevel (aqi : Option ℚ) (t1 t2 t3 t4 : ℚ) : ℕ :=
  match aqi with
  | none => 0
  | some x =>
    if x ≤ t1 then 1
    else if x ≤ t2 then 2
    else if x ≤ t3 then 3
    else if x ≤ t4 then 4
    else 5

/-! ### Device writes and the rotation-speed fallback chain
(src/index.js lines 638-640, 677-739) -/

/-- Outcome of one device.call plus the result[0] acknowledgement check:
success, a failure whose message matches the isMethodNotFound regex
(lines 638-640), or any other failure. -/
inductive CallOutcome
  | ok
  | methodNotFound
  | otherError
deriving DecidableEq

/-- The errors setPropertyValue can raise, classified the way the source
classifies them. -/
inductive JsError
  | notConnected
  | methodNotFound
  | otherError
deriving DecidableEq

/-- A positional argument of a device command. -/
inductive JsArg
  | str (s : String)
  | int (n : ℤ)
deriving DecidableEq

/-- How a call of setFavoriteLevelPercent terminates: success via a named
candidate, an uncaught raised error, or the normal return after the whole
chain failed (lines 735-739, which only log). -/
inductive WriteResult
  | success (method : String)
  | thrown (e : JsError)
  | swallowed
deriving DecidableEq

def favoriteMode : String := "favorite"

def setModeMethod : String := "set_mode"

def mFavoriteLevel : String := "set_favorite_level"

def mLevelFavorite : String := "set_level_favorite"

def mFavorite : String := "set_favorite"

def mSpeedLevel : String := "set_speed_level"

def mLevel : String := "set_level"

/-- Lines 714-720: the fixed candidate list for the rotation-speed intent. -/
def chainMethods : List String :=
  [mFavoriteLevel, mLevelFavorite, mFavorite, mSpeedLevel, mLevel]

/-- Lines 677-696: setPropertyValue.  Raises notConnected when the device
handle is null, otherwise classifies the call outcome; on success it returns,
on failure it re-raises after logging (and, for non-method-not-found errors,
after invoking connect(), counted in the ConnStep system below). -/
def setPropertyValue (connected : Bool) (t : String → CallOutcome)
    (method : String) : Except JsError Unit :=
  match connected with
  | false => Except.error JsError.notConnected
  | true =>
    match t method with
    | CallOutcome.ok => Except.ok ()
    | CallOutcome.methodNotFound => Except.error JsError.methodNotFound
    | CallOutcome.otherError => Except.error JsError.otherError

/-- The wire calls one setPropertyValue invocation issues: device.call runs
exactly when the device handle is non-null. -/
def callLogOf (connected : Bool) (method : String) (args : List JsArg) :
    List (String × List JsArg) :=
  match connected with
  | true => [(method, args)]
  | false => []

/-- Lines 722-733: the for-loop over the candidates.  Each iteration awaits
setPropertyValue; success returns immediately, any caught error continues with
the next candidate; an exhausted list falls through to the logging epilogue
(lines 735-739) and returns normally. Returns the issued calls and the result. -/
def runChain (connected : Bool) (t : String → CallOutcome) (target : ℤ) :
    List String → List (String × List JsArg) × WriteResult
  | [] => ([], WriteResult.swallowed)
  | m :: ms =>
    match setPropertyValue connected t m with
    | Except.ok _ => (callLogOf connected m [JsArg.int target], WriteResult.success m)
    | Except.error _ =>
      (callLogOf connected m [JsArg.int target] ++ (runChain connected t target ms).1,
       (runChain connected t target ms).2)

/-- Lines 699-739: setFavoriteLevelPercent.  Clamps the percentage and the
level (lines 700-701), issues a best-effort set_mode favorite pre-switch when
the cached mode differs (lines 704-711, its failure swallowed), then runs the
candidate chain.  mode is the cached state.mode, none when never polled. -/
def setFavoriteLevelPercent (connected : Bool) (t : String → CallOutcome)
    (mode : Option String) (maxFav : ℤ) (percent : ℚ) :
    List (String × List JsArg) × WriteResult :=
  let target := domainToDeviceLevel maxFav percent
  let pre : List (String × List JsArg) :=
    match mode with
    | some m =>
      if m = favoriteMode then [] else callLogOf connected setModeMethod [JsArg.str favoriteMode]
    | none => callLogOf connected setModeMethod [JsArg.str favoriteMode]
  (pre ++ (runChain connected t target chainMethods).1,
   (runChain connected t target chainMethods).2)

/-- The first candidate of a list the transport acknowledges with ok. -/
def firstOk (t : String → CallOutcome) : List String → Option String
  | [] => none
  | m :: ms =>
    match t m with
    | CallOutcome.ok => some m
    | CallOutcome.methodNotFound => firstOk t ms
    | CallOutcome.otherError => firstOk t ms

/-- The prefix of candidates the loop actually attempts: everything up to and
including the first successful one, or the whole list. -/
def triedPrefix (t : String → CallOutcome) : List String → List String
  | [] => []
  | m :: ms =>
    match t m with
    | CallOutcome.ok => [m]
    | CallOutcome.methodNotFound => m :: triedPrefix t ms
    | CallOutcome.otherError => m :: triedPrefix t ms

/-- The result the loop computes for a candidate list. -/
def chainResultOf (t : String → CallOutcome) (ms : List String) : WriteResult :=
  match firstOk t ms with
  | some m => WriteResult.success m
  | none => WriteResult.swallowed

/-- A transport on which the first rotation-speed candidate fails with a
non-method-not-found error and every other method succeeds. -/
def failFirstTransport : String → CallOutcome :=
  fun m => if m = mFavoriteLevel then CallOutcome.otherError else CallOutcome.ok

/-- A transport on which every method fails with a non-method-not-found error. -/
def allFailTransport : String → CallOutcome := fun _ => CallOutcome.otherError

/-- A transport on which every method succeeds. -/
def allOkTransport : String → CallOutcome := fun _ => CallOutcome.ok

/-! ### Poll loop and state cache (src/index.js lines 658-675) -/

/-- A raw cached device value; undef is the value of a never-assigned key. -/
inductive JsVal
  | undef
  | str (s : String)
  | num (q : ℚ)
  | nan
deriving DecidableEq

def pPower : String := "power"

def pMode : String := "mode"

def pAqi : String := "aqi"

def pTempDec : String := "temp_dec"

def pHumidity : String := "humidity"

def pFilterLife : String := "filter1_life"

def pFavoriteLevel : String := "favorite_level"

def pLed : String := "led"

def pBuzzer : String := "buzzer"

/-- Lines 661-664: the fixed batched property list of one poll. -/
def pollProps : List String :=
  [pPower, pMode, pAqi, pTempDec, pHumidity, pFilterLife, pFavoriteLevel, pLed, pBuzzer]

/-- Lines 667-669: props.forEach((prop, i) => state[prop] = values[i]);
a missing values[i] assigns undefined. -/
def assignProps : (String → JsVal) → List String → List JsVal → (String → JsVal)
  | st, [], _ => st
  | st, p :: ps, vs =>
    assignProps (fun q => if q = p then vs.headD JsVal.undef else st q) ps vs.tail

/-- Lines 658-675: pollDeviceState.  Returns the cache after one poll whose
batched get_prop fetch produced the given result; with a null device handle it
returns immediately, and a failed fetch is logged and swallowed, leaving the
cache untouched. -/
def pollDeviceState (deviceConnected : Bool) (st : String → JsVal)
    (fetch : Except JsError (List JsVal)) : String → JsVal :=
  match deviceConnected with
  | false => st
  | true =>
    match fetch with
    | Except.ok values => assignProps st pollProps values
    | Except.error _ => st

/-! ### Reconnect scheduling (src/index.js lines 643-656, 677-696)

connect() assigns the device handle on success and clears only the poll
interval; on failure it schedules setTimeout(connect, 30000) with no guard and
no stored handle.  setPropertyValue and getPropertyValue invoke connect() on
every non-method-not-found failure while the handle is non-null.  The state
counts the pending reconnect timers. -/

structure ConnState where
  connected : Bool
  pending : ℕ
deriving DecidableEq

/-- One invocation of connect() resolving: on success the handle is assigned
(no pending timer is cancelled, lines 649-651 clear only the poll interval);
on failure one more reconnect timer is scheduled (line 654). -/
def invokeConnect (s : ConnState) (success : Bool) : ConnState :=
  match success with
  | true => { s with connected := true }
  | false => { s with pending := s.pending + 1 }

/-- Failure signals of one device handler: a failed read or write invokes
connect() directly (possible only with a non-null handle, since
setPropertyValue raises notConnected first), and a pending reconnect timer
fires and invokes connect(). -/
inductive ConnStep : ConnState → ConnState → Prop
  | ioFailure (s : ConnState) (b : Bool) (h : s.connected = true) :
      ConnStep s (invokeConnect s b)
  | timerFire (s : ConnState) (b : Bool) (h : 0 < s.pending) :
      ConnStep s (invokeConnect { s with pending := s.pending - 1 } b)

/-- States reachable from the constructor, whose single connect() call starts
from no handle and no pending timer. -/
inductive ConnReachable : ConnState → Prop
  | boot (b : Bool) : ConnReachable (invokeConnect { connected := false, pending := 0 } b)
  | step {s s' : ConnState} : ConnReachable s → ConnStep s s' → ConnReachable s'

/-! ## Helper lemmas -/

/-- The default threshold list is non-decreasing. -/
lemma isSortedLe_default : isSortedLe defaultAqThresholds = true := by decide

/-- quadOk implies the list of the four numbers is non-decreasing. -/
lemma isSortedLe_of_quadOk {a b c d : ℚ} (h : quadOk a b c d = true) :
    isSortedLe [a, b, c, d] = true := by
  simp only [quadOk, Bool.and_eq_true, decide_eq_true_eq] at h
  simp only [isSortedLe, Bool.and_eq_true, decide_eq_true_eq, Bool.and_true]
  tauto

/-- The loop issues exactly the tried prefix of candidates and computes the
result of the first acknowledged candidate. -/
lemma runChain_tried (t : String → CallOutcome) (target : ℤ) (ms : List String) :
    (runChain true t target ms).1 =
      (triedPrefix t ms).map (fun m => (m, [JsArg.int target])) ∧
    (runChain true t target ms).2 = chainResultOf t ms := by
  induction ms with
  | nil => simp [runChain, triedPrefix, chainResultOf, firstOk]
  | cons m ms ih =>
    cases h : t m <;>
      simp [runChain, triedPrefix, chainResultOf, firstOk, setPropertyValue,
        callLogOf, h, ih.1, ih.2]

/-- The loop never lets an error escape: its result is success or swallowed. -/
lemma runChain_never_thrown (connected : Bool) (t : String → CallOutcome)
    (target : ℤ) (ms : List String) (e : JsError) :
    (runChain connected t target ms).2 ≠ WriteResult.thrown e := by
  induction ms with
  | nil => simp [runChain]
  | cons m ms ih =>
    cases hs : setPropertyValue connected t m <;> simp [runChain, hs, ih]

/-! ## Claims -/

/-- C1, counterexample: on a transport whose first rotation-speed candidate
set_favorite_level fails with a definitive non-unsupported error, the write is
NOT aborted: the next candidate set_level_favorite is still tried and the
write succeeds through it, contradicting the claim that any non-unsupported
failure stops the chain and surfaces an error. -/
theorem favoriteChain_tries_after_hard_failure :
    failFirstTransport mFavoriteLevel = CallOutcome.otherError ∧
    (setFavoriteLevelPercent true failFirstTransport (some favoriteMode) 14 50).2 =
      WriteResult.success mLevelFavorite := by
  constructor
  · decide
  · simp [setFavoriteLevelPercent, runChain, chainMethods, setPropertyValue,
      failFirstTransport, callLogOf, mFavoriteLevel, mLevelFavorite]

/-- C1, amended: the fallback chain is tried in its fixed priority order and
stops at the first successful candidate; EVERY failing candidate — whether the
failure is classified method-not-found or not — advances the attempt to the
next candidate, and when every candidate fails the write completes without
surfacing an error. -/
theorem favoriteChain_first_success (t : String → CallOutcome) (maxFav : ℤ) (percent : ℚ) :
    (setFavoriteLevelPercent true t (some favoriteMode) maxFav percent).1 =
      (triedPrefix t chainMethods).map
        (fun m => (m, [JsArg.int (domainToDeviceLevel maxFav percent)])) ∧
    (setFavoriteLevelPercent true t (some favoriteMode) maxFav percent).2 =
      chainResultOf t chainMethods := by
  have h := runChain_tried t (domainToDeviceLevel maxFav percent) chainMethods
  constructor
  · simpa [setFavoriteLevelPercent] using h.1
  · simpa [setFavoriteLevelPercent] using h.2

/-- C2, counterexample: on a transport where every candidate fails with a
definitive error, the rotation-speed write terminates normally (the exhausted
chain is only logged, lines 735-739), not with an error — contradicting the
claim that every failing write re-raises to the caller. -/
theorem favoriteChain_swallows_total_failure :
    (setFavoriteLevelPercent true allFailTransport (some favoriteMode) 14 50).2 =
      WriteResult.swallowed := by
  decide

/-- C2, amended: a failing single-command write through setPropertyValue does
re-raise its failure to the caller, but the rotation-speed write never
terminates with an error: even when every fallback candidate fails it returns
normally after logging. -/
theorem write_failure_propagation (t : String → CallOutcome) (m : String)
    (h : t m ≠ CallOutcome.ok) (mode : Option String) (maxFav : ℤ) (percent : ℚ)
    (e : JsError) :
    (∃ err, setPropertyValue true t m = Except.error err) ∧
    (setFavoriteLevelPercent true t mode maxFav percent).2 ≠ WriteResult.thrown e := by
  constructor
  · cases hc : t m with
    | ok => exact absurd hc h
    | methodNotFound => exact ⟨JsError.methodNotFound, by simp [setPropertyValue, hc]⟩
    | otherError => exact ⟨JsError.otherError, by simp [setPropertyValue, hc]⟩
  · have hnt := runChain_never_thrown true t (domainToDeviceLevel maxFav percent)
      chainMethods e
    simpa [setFavoriteLevelPercent] using hnt

/-- Witness for C2 at a concrete failing transport. -/
theorem write_failure_propagation_witness :
    (∃ err, setPropertyValue true allFailTransport mFavoriteLevel = Except.error err) ∧
    (setFavoriteLevelPercent true allFailTransport (some favoriteMode) 14 50).2 ≠
      WriteResult.thrown JsError.otherError :=
  write_failure_propagation allFailTransport mFavoriteLevel (by decide)
    (some favoriteMode) 14 50 JsError.otherError

/-- C3, counterexample: the out-of-range rotation-speed value 150 is not
rejected and no validation error exists: the value is clamped and a device
command is issued for it (set_favorite_level with level 14), and the write
succeeds — contradicting the claim that the write is rejected before any
network call. -/
theorem speed_write_out_of_range_issues_command :
    (setFavoriteLevelPercent true allOkTransport (some favoriteMode) 14 150).1 =
      [(mFavoriteLevel, [JsArg.int 14])] ∧
    (setFavoriteLevelPercent true allOkTransport (some favoriteMode) 14 150).2 =
      WriteResult.success mFavoriteLevel := by
  have ht : domainToDeviceLevel 14 150 = 14 := by
    norm_num [domainToDeviceLevel, jsRound, clampPercent, min_def, max_def]
  constructor
  · simp [setFavoriteLevelPercent, runChain, chainMethods, setPropertyValue,
      allOkTransport, callLogOf, ht]
  · simp [setFavoriteLevelPercent, runChain, chainMethods, setPropertyValue,
      allOkTransport, callLogOf]

/-- C3, amended: an out-of-range or malformed rotation-speed value is never
rejected: the percentage is clamped into [0, 100] and the derived level into
[1, modelMax], and a device command carrying the clamped level is issued; the
write proceeds normally. -/
theorem speed_write_clamps_not_rejects (maxFav : ℤ) (hm : 1 ≤ maxFav) (percent : ℚ) :
    (setFavoriteLevelPercent true allOkTransport (some favoriteMode) maxFav percent).1 =
      [(mFavoriteLevel, [JsArg.int (domainToDeviceLevel maxFav percent)])] ∧
    1 ≤ domainToDeviceLevel maxFav percent ∧
    domainToDeviceLevel maxFav percent ≤ maxFav ∧
    (setFavoriteLevelPercent true allOkTransport (some favoriteMode) maxFav percent).2 =
      WriteResult.success mFavoriteLevel := by
  refine ⟨?_, le_max_left _ _, ?_, ?_⟩
  · simp [setFavoriteLevelPercent, runChain, chainMethods, setPropertyValue,
      allOkTransport, callLogOf]
  · exact max_le hm (min_le_left _ _)
  · simp [setFavoriteLevelPercent, runChain, chainMethods, setPropertyValue,
      allOkTransport, callLogOf]

/-- Witness for C3 at the concrete out-of-range percentage 150. -/
theorem speed_write_clamps_not_rejects_witness :
    (setFavoriteLevelPercent true allOkTransport (some favoriteMode) 14 150).1 =
      [(mFavoriteLevel, [JsArg.int (domainToDeviceLevel 14 150)])] ∧
    1 ≤ domainToDeviceLevel 14 150 ∧
    domainToDeviceLevel 14 150 ≤ 14 ∧
    (setFavoriteLevelPercent true allOkTransport (some favoriteMode) 14 150).2 =
      WriteResult.success mFavoriteLevel :=
  speed_write_clamps_not_rejects 14 (by decide) 150

/-- C4, counterexample: a state with two concurrently pending reconnect timers
is reachable — the constructor connect succeeds, then two failed writes each
invoke connect(), each failing attempt scheduling its own unguarded
setTimeout — contradicting the claim that reconnect scheduling is
deduplicated to at most one pending timer. -/
theorem reconnect_timers_can_stack :
    ConnReachable { connected := true, pending := 2 } ∧
    ¬ (ConnState.pending { connected := true, pending := 2 } ≤ 1) := by
  constructor
  · have h0 : ConnReachable { connected := true, pending := 0 } :=
      ConnReachable.boot true
    have h1 : ConnReachable { connected := true, pending := 1 } :=
      ConnReachable.step h0 (ConnStep.ioFailure { connected := true, pending := 0 } false rfl)
    exact ConnReachable.step h1
      (ConnStep.ioFailure { connected := true, pending := 1 } false rfl)
  · decide

/-- C4, amended: each single failure signal schedules at most one new
reconnect timer, but scheduling is not deduplicated: failure signals arriving
while a reconnect is already pending stack further pending timers, so more
than one pending reconnect timer is reachable. -/
theorem reconnect_step_adds_at_most_one (s s' : ConnState) (h : ConnStep s s') :
    ConnState.pending s' ≤ ConnState.pending s + 1 := by
  cases h with
  | ioFailure b hc => cases b <;> simp [invokeConnect]
  | timerFire b hc => cases b <;> simp [invokeConnect] <;> omega

/-- Witness for C4 at a concrete failure step. -/
theorem reconnect_step_adds_at_most_one_witness :
    ConnState.pending { connected := true, pending := 1 } ≤
      ConnState.pending { connected := true, pending := 0 } + 1 :=
  reconnect_step_adds_at_most_one { connected := true, pending := 0 }
    { connected := true, pending := 1 }
    (ConnStep.ioFailure { connected := true, pending := 0 } false rfl)

/-- C5: threshold parsing is total and always yields a four-element
non-decreasing list: a valid input (four non-negative finite numbers in
non-decreasing order, in object or array form) is returned as supplied, and
every other input yields the fixed default [5, 15, 35, 55]. -/
theorem parseAqThresholds_total_and_sorted (conf : AqConf) :
    (parseAqThresholds conf).length = 4 ∧
    isSortedLe (parseAqThresholds conf) = true ∧
    parseAqThresholds conf =
      (if isValidAqConf conf then suppliedThresholds conf else defaultAqThresholds) := by
  rcases conf with ⟨t1, t2, t3, t4⟩ | es | _
  · rcases t1 with _ | a <;> rcases t2 with _ | b <;> rcases t3 with _ | c <;>
      rcases t4 with _ | d <;>
      try exact ⟨rfl, isSortedLe_default, rfl⟩
    cases hq : quadOk a b c d
    · have he : parseAqThresholds (AqConf.obj (some a) (some b) (some c) (some d)) =
          defaultAqThresholds := by
        simp [parseAqThresholds, hq]
      refine ⟨?_, ?_, ?_⟩
      · rw [he]; rfl
      · rw [he]; exact isSortedLe_default
      · rw [he]; simp [isValidAqConf, hq]
    · have he : parseAqThresholds (AqConf.obj (some a) (some b) (some c) (some d)) =
          [a, b, c, d] := by
        simp [parseAqThresholds, hq]
      refine ⟨?_, ?_, ?_⟩
      · rw [he]; rfl
      · rw [he]; exact isSortedLe_of_quadOk hq
      · rw [he]; simp [isValidAqConf, suppliedThresholds, hq]
  · rcases es with _ | ⟨_ | a, _ | ⟨_ | b, _ | ⟨_ | c, _ | ⟨_ | d, _ | ⟨v5, rest⟩⟩⟩⟩⟩ <;>
      try exact ⟨rfl, isSortedLe_default, rfl⟩
    cases hq : quadOk a b c d
    · have he : parseAqThresholds (AqConf.arr [some a, some b, some c, some d]) =
          defaultAqThresholds := by
        simp [parseAqThresholds, hq]
      refine ⟨?_, ?_, ?_⟩
      · rw [he]; rfl
      · rw [he]; exact isSortedLe_default
      · rw [he]; simp [isValidAqConf, hq]
    · have he : parseAqThresholds (AqConf.arr [some a, some b, some c, some d]) =
          [a, b, c, d] := by
        simp [parseAqThresholds, hq]
      refine ⟨?_, ?_, ?_⟩
      · rw [he]; rfl
      · rw [he]; exact isSortedLe_of_quadOk hq
      · rw [he]; simp [isValidAqConf, suppliedThresholds, hq]
  · exact ⟨rfl, isSortedLe_default, rfl⟩

/-- C6: for every valid ascending four-element threshold set and finite index
values x ≤ y, the classification of x is at most the classification of y:
increasing the air-quality index never decreases the ordinal. -/
theorem mapAqi_monotone (a b c d x y : ℚ)
    (h0 : 0 ≤ a) (h1 : a ≤ b) (h2 : b ≤ c) (h3 : c ≤ d) (hxy : x ≤ y) :
    mapAqiToHomeKitLevel (some x) a b c d ≤ mapAqiToHomeKitLevel (some y) a b c d := by
  simp only [mapAqiToHomeKitLevel]
  split_ifs <;> first | omega | (exfalso; linarith)

/-- Witness for C6 at the default thresholds and indices 10 ≤ 40. -/
theorem mapAqi_monotone_witness :
    mapAqiToHomeKitLevel (some 10) 5 15 35 55 ≤ mapAqiToHomeKitLevel (some 40) 5 15 35 55 :=
  mapAqi_monotone 5 15 35 55 10 40 (by decide) (by decide) (by decide) (by decide)
    (by decide)

/-- C7: for each model maximum level (14 or 16) and every level in
[1, modelMax], converting to a percentage with round(level / modelMax * 100)
and back with round(percent / 100 * modelMax) clamped to [1, modelMax] lands
within one unit of the original level. -/
theorem favorite_level_roundtrip (maxFav level : ℤ)
    (hm : maxFav = 14 ∨ maxFav = 16) (hlo : 1 ≤ level) (hhi : level ≤ maxFav) :
    |domainToDeviceLevel maxFav ((favPercentOfLevel maxFav level : ℤ) : ℚ) - level| ≤ 1 := by
  rcases hm with rfl | rfl <;> interval_cases level <;>
    norm_num [domainToDeviceLevel, favPercentOfLevel, jsRound, clampPercent,
      min_def, max_def]

/-- Witness for C7 at modelMax 14 and level 7. -/
theorem favorite_level_roundtrip_witness :
    |domainToDeviceLevel 14 ((favPercentOfLevel 14 7 : ℤ) : ℚ) - 7| ≤ 1 :=
  favorite_level_roundtrip 14 7 (Or.inl rfl) (by decide) (by decide)

/-- C8: the domain-to-device conversion is clamped to [1, modelMax]: every
requested percentage in [0, 100] yields a level between 1 and modelMax, so in
particular a requested 0 percent never yields a literal level 0. -/
theorem domainToDeviceLevel_clamped (maxFav : ℤ) (hm : 1 ≤ maxFav) (p : ℚ)
    (h0 : 0 ≤ p) (h100 : p ≤ 100) :
    1 ≤ domainToDeviceLevel maxFav p ∧ domainToDeviceLevel maxFav p ≤ maxFav := by
  unfold domainToDeviceLevel
  exact ⟨le_max_left _ _, max_le hm (min_le_left _ _)⟩

/-- Witness for C8 at modelMax 14 and the boundary request 0 percent. -/
theorem domainToDeviceLevel_clamped_witness :
    1 ≤ domainToDeviceLevel 14 0 ∧ domainToDeviceLevel 14 0 ≤ 14 :=
  domainToDeviceLevel_clamped 14 (by decide) 0 (by decide) (by decide)

/-- C9: a failed batched property fetch leaves the cached snapshot unchanged:
after a poll whose fetch raised, every property has exactly the value cached
before the poll (the failure is logged and swallowed). -/
theorem poll_failure_preserves_cache (deviceConnected : Bool) (st : String → JsVal)
    (e : JsError) (p : String) :
    pollDeviceState deviceConnected st (Except.error e) p = st p := by
  cases deviceConnected <;> rfl

/-- C10: the rotation-speed percentage computed from the cache is total and in
range: for every cached favorite_level (missing and non-numeric values giving
a non-finite Number() result, modelled as none), the computed value is an
integer between 0 and 100, and every non-finite raw value maps to 0. -/
theorem rotationSpeed_total_in_range (maxFav : ℤ) (fav : Option ℚ) :
    0 ≤ rotationSpeedFromCache maxFav fav ∧
    rotationSpeedFromCache maxFav fav ≤ 100 ∧
    rotationSpeedFromCache maxFav none = 0 := by
  cases fav with
  | none => exact ⟨le_refl 0, by show (0 : ℤ) ≤ 100; decide, rfl⟩
  | some f =>
    exact ⟨le_max_left _ _, max_le (by show (0 : ℤ) ≤ 100; decide) (min_le_left _ _), rfl⟩
